import Mathlib

/-!
Verification of the task-lifecycle / real-time-synchronization core of the
SWE agent repository: a shallow embedding in Lean 4 of the in-memory entity
store (MemStorage), the plan-review route handlers, the chat-ingestion
handler, the per-task websocket broadcast hub, and the dashboard's
active-agent derivation, together with theorems settling the specification
claims about them.

Modelling conventions:
- JS strings are Lean `String`; nullable / possibly-absent fields are
  `Option`.
- `new Date()` timestamps are naturals drawn from a store clock that ticks
  on each allocation (timestamps are non-decreasing along any execution,
  and the ordering lemmas below are proved for non-decreasing keys).
- `randomUUID()` is a fresh-id counter in the store.
- `Array.prototype.sort` is stable (ES2019); it is embedded as a stable
  insertion sort on the comparator's key.
- A JS `Map` is embedded as a function into `Option` (absent key = `none`);
  the messages/activities maps, whose value iteration order matters, are
  embedded as lists in insertion order (JS Map iteration order).
-/

namespace SWE

/-- Per-agent substates of a task, as stored in the `agentStates` jsonb
column: the code only ever reads/writes the `manager`, `planner` and
`programmer` keys, each holding a substate string. -/
structure AgentStates where
  manager : String
  planner : String
  programmer : String
deriving DecidableEq, Repr

/-- A stored Task entity (shared/schema.ts `tasks` table / `Task` type).
Fields that are nullable in the schema, or that MemStorage can leave
absent at runtime, are `Option`. In particular `status` is `Option`:
the `pending` default lives only in the SQL column definition, and
`MemStorage.createTask` spreads the insert object without supplying it. -/
structure Task where
  id : String
  title : String
  description : Option String
  status : Option String
  priority : Option String
  progress : Int
  repositoryId : Option String
  userId : Option String
  githubIssueNumber : Option Int
  pullRequestNumber : Option Int
  agentStates : AgentStates
  plan : Option String
  metadata : List (String × String)
  createdAt : Nat
  updatedAt : Nat
deriving DecidableEq, Repr

/-- The insert payload accepted by `MemStorage.createTask`
(`insertTaskSchema` = tasks minus id/createdAt/updatedAt; columns with a
SQL default are optional in the zod insert schema, hence `Option` here). -/
structure InsertTask where
  title : String
  description : Option String
  status : Option String
  priority : Option String
  progress : Option Int
  repositoryId : Option String
  userId : Option String
  githubIssueNumber : Option Int
  pullRequestNumber : Option Int
  agentStates : Option AgentStates
  plan : Option String
  metadata : Option (List (String × String))
deriving DecidableEq, Repr

/-- A `Partial<Task>` update object: every field optional (`none` = key
absent from the partial, so the stored value is kept by the spread). -/
structure TaskPatch where
  id : Option String := none
  title : Option String := none
  description : Option (Option String) := none
  status : Option (Option String) := none
  priority : Option (Option String) := none
  progress : Option Int := none
  repositoryId : Option (Option String) := none
  userId : Option (Option String) := none
  githubIssueNumber : Option (Option Int) := none
  pullRequestNumber : Option (Option Int) := none
  agentStates : Option AgentStates := none
  plan : Option (Option String) := none
  metadata : Option (List (String × String)) := none
  createdAt : Option Nat := none
  updatedAt : Option Nat := none
deriving DecidableEq, Repr

/-- A stored Message entity. -/
structure Message where
  id : String
  taskId : Option String
  sender : String
  content : String
  msgType : Option String
  metadata : List (String × String)
  createdAt : Nat
deriving DecidableEq, Repr

/-- The insert payload accepted by `MemStorage.createMessage`. -/
structure InsertMessage where
  taskId : Option String
  sender : String
  content : String
  msgType : Option String
  metadata : Option (List (String × String)) := none
deriving DecidableEq, Repr

/-- A stored Activity entity. -/
structure Activity where
  id : String
  actType : String
  description : String
  taskId : Option String
  userId : Option String
  metadata : List (String × String)
  createdAt : Nat
deriving DecidableEq, Repr

/-- The insert payload accepted by `MemStorage.createActivity`. -/
structure InsertActivity where
  actType : String
  description : String
  taskId : Option String
  userId : Option String
  metadata : Option (List (String × String)) := none
deriving DecidableEq, Repr

/-- The MemStorage state: the three entity maps the claims touch, plus the
timestamp clock and the fresh-id counter. Tasks are keyed by id; messages
and activities are kept in insertion order (JS Map value order). -/
structure Store where
  tasks : String → Option Task
  messages : List Message
  activities : List Activity
  clock : Nat
  nextId : Nat

/-- Fresh id allocation, embedding `randomUUID()`. -/
def genId (n : Nat) : String := "uuid-" ++ toString n

/-- MemStorage.getTask. -/
def getTask (st : Store) (id : String) : Option Task := st.tasks id

/-- The agentStates default applied by createTask when the insert payload
carries none. -/
def defaultAgentStates : AgentStates :=
  { manager := "pending", planner := "waiting", programmer := "waiting" }

/-- MemStorage.createTask: assigns a fresh id, defaults
`progress := insertTask.progress || 0` (JS: absent and 0 both give 0) and
`agentStates := insertTask.agentStates || defaults` (an object is always
truthy, so any provided record is kept), stamps createdAt/updatedAt, and
spreads the rest of the insert payload unchanged - in particular `status`
is NOT defaulted here. Returns the task and the updated store. -/
def createTask (st : Store) (it : InsertTask) : Task × Store :=
  let id := genId st.nextId
  let task : Task :=
    { id := id
      title := it.title
      description := it.description
      status := it.status
      priority := it.priority
      progress := match it.progress with | none => 0 | some v => if v = 0 then 0 else v
      repositoryId := it.repositoryId
      userId := it.userId
      githubIssueNumber := it.githubIssueNumber
      pullRequestNumber := it.pullRequestNumber
      agentStates := it.agentStates.getD defaultAgentStates
      plan := it.plan
      metadata := it.metadata.getD []
      createdAt := st.clock
      updatedAt := st.clock }
  (task,
   { st with
       tasks := fun k => if k = id then some task else st.tasks k
       clock := st.clock + 1
       nextId := st.nextId + 1 })

/-- The spread `{ ...task, ...updates, updatedAt: new Date() }`: every key
present in the partial overwrites the stored value (including id and
createdAt, which `Partial<Task>` does contain), and updatedAt is always
refreshed afterwards. -/
def mergePatch (t : Task) (p : TaskPatch) (now : Nat) : Task :=
  { id := p.id.getD t.id
    title := p.title.getD t.title
    description := p.description.getD t.description
    status := p.status.getD t.status
    priority := p.priority.getD t.priority
    progress := p.progress.getD t.progress
    repositoryId := p.repositoryId.getD t.repositoryId
    userId := p.userId.getD t.userId
    githubIssueNumber := p.githubIssueNumber.getD t.githubIssueNumber
    pullRequestNumber := p.pullRequestNumber.getD t.pullRequestNumber
    agentStates := p.agentStates.getD t.agentStates
    plan := p.plan.getD t.plan
    metadata := p.metadata.getD t.metadata
    createdAt := p.createdAt.getD t.createdAt
    updatedAt := now }

/-- MemStorage.updateTask: undefined when the id is absent; otherwise
shallow-merges the partial over the stored task, refreshes updatedAt, and
stores the result under the ORIGINAL key (the map key is the `id`
parameter, not the merged entity's id field). -/
def updateTask (st : Store) (id : String) (p : TaskPatch) : Option Task × Store :=
  match st.tasks id with
  | none => (none, st)
  | some t =>
    let t' := mergePatch t p st.clock
    (some t',
     { st with
         tasks := fun k => if k = id then some t' else st.tasks k
         clock := st.clock + 1 })

/-- MemStorage.deleteTask: removes only the task entry, returning whether
it existed; messages and activities are untouched. -/
def deleteTask (st : Store) (id : String) : Bool × Store :=
  ((st.tasks id).isSome,
   { st with tasks := fun k => if k = id then none else st.tasks k })

/-- MemStorage.createMessage: fresh id, `metadata || {}`, createdAt from
the clock, inserted at the end of the map (JS Map insertion order). -/
def createMessage (st : Store) (im : InsertMessage) : Message × Store :=
  let msg : Message :=
    { id := genId st.nextId
      taskId := im.taskId
      sender := im.sender
      content := im.content
      msgType := im.msgType
      metadata := im.metadata.getD []
      createdAt := st.clock }
  (msg,
   { st with
       messages := st.messages ++ [msg]
       clock := st.clock + 1
       nextId := st.nextId + 1 })

/-- MemStorage.createActivity: fresh id, `metadata || {}`, createdAt from
the clock, inserted at the end of the map. -/
def createActivity (st : Store) (ia : InsertActivity) : Activity × Store :=
  let act : Activity :=
    { id := genId st.nextId
      actType := ia.actType
      description := ia.description
      taskId := ia.taskId
      userId := ia.userId
      metadata := ia.metadata.getD []
      createdAt := st.clock }
  (act,
   { st with
       activities := st.activities ++ [act]
       clock := st.clock + 1
       nextId := st.nextId + 1 })

/-- Stable insertion of an element into a list already sorted by `key`
ascending: the new element goes before the first strictly-greater key, so
elements with equal keys keep their relative order. Together with
`sortByKeyAsc` this embeds the stable ES2019 `Array.prototype.sort` with
comparator `(a, b) => key(a) - key(b)`. -/
def insertByKeyAsc (key : α → Nat) (x : α) : List α → List α
  | [] => [x]
  | y :: ys => if key x ≤ key y then x :: y :: ys else y :: insertByKeyAsc key x ys

/-- Stable sort by `key` ascending. -/
def sortByKeyAsc (key : α → Nat) : List α → List α
  | [] => []
  | x :: xs => insertByKeyAsc key x (sortByKeyAsc key xs)

/-- Stable insertion for the descending comparator
`(a, b) => key(b) - key(a)`: the new element goes before the first
strictly-smaller key. -/
def insertByKeyDesc (key : α → Nat) (x : α) : List α → List α
  | [] => [x]
  | y :: ys => if key y ≤ key x then x :: y :: ys else y :: insertByKeyDesc key x ys

/-- Stable sort by `key` descending. -/
def sortByKeyDesc (key : α → Nat) : List α → List α
  | [] => []
  | x :: xs => insertByKeyDesc key x (sortByKeyDesc key xs)

/-- MemStorage.getMessagesByTask: the task's messages in map order,
sorted ascending by createdAt (stable). -/
def getMessagesByTask (st : Store) (taskId : String) : List Message :=
  sortByKeyAsc Message.createdAt
    (st.messages.filter (fun m => m.taskId = some taskId))

/-- JS `Array.prototype.slice(0, e)`: a negative end index counts from the
end of the array. -/
def jsSliceTo (l : List α) (e : Int) : List α :=
  if e < 0 then l.take (l.length - e.natAbs) else l.take e.toNat

/-- MemStorage.getActivitiesByUser: the user's activities sorted
most-recent-first, truncated with `slice(0, limit)` (limit defaults to 10
at the storage signature; the route computes its own). -/
def getActivitiesByUser (st : Store) (userId : String) (limit : Int := 10) : List Activity :=
  jsSliceTo
    (sortByKeyDesc Activity.createdAt
      (st.activities.filter (fun a => a.userId = some userId)))
    limit

/-! ## Broadcast hub (taskSockets registry and broadcastToTask) -/

/-- A websocket connection, identified abstractly. -/
abbrev Conn := Nat

/-- The `taskSockets : Map<string, Set<WebSocket>>` registry: absent key =
no entry for that task id. The per-id `Set` is a duplicate-free list. -/
def Registry := String → Option (List Conn)

/-- The connection handler for a socket carrying a taskId: create the
entry if absent, then add the socket to the set (Set.add is idempotent). -/
def subscribe (reg : Registry) (tid : String) (c : Conn) : Registry :=
  fun t =>
    if t = tid then
      match reg tid with
      | none => some [c]
      | some s => some (if c ∈ s then s else s ++ [c])
    else reg t

/-- The close handler: remove the socket from its task's set, then delete
the registry entry if the set became empty. -/
def unsubscribe (reg : Registry) (tid : String) (c : Conn) : Registry :=
  fun t =>
    if t = tid then
      match reg tid with
      | none => none
      | some s =>
        let s' := s.erase c
        if s' = [] then none else some s'
    else reg t

/-- The subscriber set of a task id (empty when no entry). -/
def subsOf (reg : Registry) (tid : String) : List Conn :=
  (reg tid).getD []

/-- broadcastToTask: the connections a publish to `tid` delivers to - the
registered set, restricted to sockets in readyState OPEN; no entry means
no delivery (the `if (clients)` guard: a total no-op, no error). -/
def broadcastRecipients (reg : Registry) (tid : String) (isOpen : Conn → Bool) : List Conn :=
  match reg tid with
  | none => []
  | some s => s.filter isOpen

/-! ## Route handlers -/

/-- Events published through broadcastToTask, with their payloads. -/
inductive Event
  | taskUpdated (task : Option Task)
  | planApproved (task : Option Task)
  | planChangesRequested (task : Option Task) (feedback : String)
  | newMessages (messages : List Message)
deriving DecidableEq, Repr

/-- Outcome of a route handler: 404 NotFound or a JSON response carrying
the (possibly undefined) updated task. -/
inductive RouteOut
  | notFound
  | ok (task : Option Task)
deriving DecidableEq, Repr

/-- POST /api/tasks/:id/approve-plan. After the existence check there is
no condition on the task's current status: the handler always writes
status=executing and agentStates=(complete, complete, active), appends a
plan_approved Activity, and broadcasts a plan_approved event to the
task's subscribers. Returns the outcome, the updated store, and the
(taskId, event) broadcasts issued. -/
def approvePlan (st : Store) (id : String) : RouteOut × Store × List (String × Event) :=
  match getTask st id with
  | none => (.notFound, st, [])
  | some task =>
    let r := updateTask st id
      { status := some (some "executing")
        agentStates := some
          { manager := "complete", planner := "complete", programmer := "active" } }
    let st2 := (createActivity r.2
      { actType := "plan_approved"
        description := "Plan approved for task: " ++ task.title
        taskId := some task.id
        userId := task.userId }).2
    (.ok r.1, st2, [(task.id, .planApproved r.1)])

/-- POST /api/tasks/:id/request-changes. After the existence check the
handler unconditionally (no status check, no feedback validation) appends
a Message (sender user, type plan_feedback, content = feedback), updates
only agentStates to (complete, revising, waiting) - the status field is
not written - and broadcasts plan_changes_requested carrying the updated
task and the raw feedback. -/
def requestChanges (st : Store) (id : String) (feedback : String) :
    RouteOut × Store × List (String × Event) :=
  match getTask st id with
  | none => (.notFound, st, [])
  | some task =>
    let st1 := (createMessage st
      { taskId := some task.id
        sender := "user"
        content := feedback
        msgType := some "plan_feedback" }).2
    let r := updateTask st1 id
      { agentStates := some
          { manager := "complete", planner := "revising", programmer := "waiting" } }
    (.ok r.1, r.2, [(task.id, .planChangesRequested r.1 feedback)])

/-- The chat branch of the ws.on('message') handler, for a frame of type
'chat' on a connection subscribed to `tid`. The external collaborator
call `aiService.processHumanMessage` is the `collab` argument (`Except`:
its failure mode). The whole body runs inside a try/catch, so the handler
is a total function: on collaborator failure the error is logged and the
sequence ends - the user message saved in step 1 persists, but no reply
is appended and nothing is broadcast. On success the reply is appended
(sender planner when status is planning, else programmer) and a
new_messages event carrying the task's messages is broadcast. -/
def chatHandler (st : Store) (tid : String) (content : String)
    (collab : Except Unit String) : Store × List (String × Event) :=
  match getTask st tid with
  | none => (st, [])
  | some task =>
    let st1 := (createMessage st
      { taskId := some tid, sender := "user", content := content, msgType := some "chat" }).2
    match collab with
    | .error _ => (st1, [])
    | .ok reply =>
      let st2 := (createMessage st1
        { taskId := some tid
          sender := if task.status = some "planning" then "planner" else "programmer"
          content := reply
          msgType := some "chat" }).2
      (st2, [(tid, .newMessages (getMessagesByTask st2 tid))])

/-- JS `parseInt(s, 10)` on the leading portion of a string: skip
whitespace, optional sign, then the longest digit run; NaN (`none`) when
no digits follow. `parseInt(undefined)` is also NaN. -/
def jsParseDigits (cs : List Char) : Option Nat :=
  let ds := cs.takeWhile Char.isDigit
  if ds = [] then none
  else some (ds.foldl (fun acc c => acc * 10 + (c.toNat - 48)) 0)

/-- JS parseInt over a possibly-absent query parameter. -/
def jsParseInt (s : Option String) : Option Int :=
  match s with
  | none => none
  | some str =>
    match str.data.dropWhile Char.isWhitespace with
    | '-' :: rest => (jsParseDigits rest).map (fun n => -(n : Int))
    | '+' :: rest => (jsParseDigits rest).map (fun n => (n : Int))
    | cs => (jsParseDigits cs).map (fun n => (n : Int))

/-- The route's `parseInt(req.query.limit) || 10`: NaN and 0 are falsy
and fall back to 10. -/
def limitOr10 (r : Option Int) : Int :=
  match r with
  | none => 10
  | some v => if v = 0 then 10 else v

/-- GET /api/activities/user/:userId with an optional `limit` query
parameter. -/
def activitiesRoute (st : Store) (userId : String) (limitParam : Option String) :
    List Activity :=
  getActivitiesByUser st userId (limitOr10 (jsParseInt limitParam))

/-! ## Dashboard display derivation -/

/-- The dashboard's agentStates view of a task (client-side
TaskWithProgress, of which getActiveAgent reads only agentStates). -/
structure TaskView where
  agentStates : AgentStates
deriving DecidableEq, Repr

/-- Dashboard.getActiveAgent: the displayed foreground agent. The code
matches only programmer='working', then planner='working', then
manager='active'; every other substate combination yields undefined. -/
def getActiveAgent (task : Option TaskView) : Option String :=
  match task with
  | none => none
  | some t =>
    if t.agentStates.programmer = "working" then some "programmer"
    else if t.agentStates.planner = "working" then some "planner"
    else if t.agentStates.manager = "active" then some "manager"
    else none

/-! ## Concrete fixtures used by counterexamples and witnesses -/

/-- A store with no entities. -/
def emptyStore : Store :=
  { tasks := fun _ => none, messages := [], activities := [], clock := 0, nextId := 0 }

/-- A concrete task with a given id and status. -/
def mkTask (id : String) (status : Option String) : Task :=
  { id := id
    title := "T"
    description := none
    status := status
    priority := some "medium"
    progress := 0
    repositoryId := none
    userId := some "u1"
    githubIssueNumber := none
    pullRequestNumber := none
    agentStates := { manager := "complete", planner := "complete", programmer := "waiting" }
    plan := none
    metadata := []
    createdAt := 5
    updatedAt := 5 }

/-- A store holding exactly one task. -/
def mkStore (t : Task) : Store :=
  { tasks := fun k => if k = t.id then some t else none
    messages := []
    activities := []
    clock := 6
    nextId := 3 }

/-- A create-task payload that omits every optional field. -/
def insBare : InsertTask :=
  { title := "t"
    description := none
    status := none
    priority := none
    progress := none
    repositoryId := none
    userId := none
    githubIssueNumber := none
    pullRequestNumber := none
    agentStates := none
    plan := none
    metadata := none }

/-- A create-task payload that supplies progress=50 and omits status. -/
def insProgress50 : InsertTask :=
  { insBare with progress := some 50 }

/-- A task partial that tries to overwrite id and createdAt. -/
def patchIdCreatedAt : TaskPatch :=
  { id := some "zz", createdAt := some 99 }

/-- A task partial touching only status. -/
def patchStatusOnly : TaskPatch :=
  { status := some (some "executing") }

/-- A chat insert-message payload, as built by the chat handler's step 1. -/
def userChatInsert (tid content : String) : InsertMessage :=
  { taskId := some tid, sender := "user", content := content, msgType := some "chat" }

/-- A dashboard task view whose planner is revising with no other
active-like substate. -/
def viewPlannerRevising : TaskView :=
  { agentStates := { manager := "complete", planner := "revising", programmer := "waiting" } }

/-- The empty socket registry. -/
def emptyReg : Registry := fun _ => none

/-- A registry with connection 1 on task A and connection 2 on task B. -/
def regAB : Registry := subscribe (subscribe emptyReg "A" 1) "B" 2

/-! ## Helper lemmas -/

/-- A stable ascending insertion sort leaves a list whose keys are already
non-decreasing unchanged (this is the stability fact the message-ordering
claim rests on: equal createdAt keys keep insertion order). -/
theorem sortByKeyAsc_eq_self (key : α → Nat) (l : List α)
    (h : l.Chain' (fun a b => key a ≤ key b)) : sortByKeyAsc key l = l := by
  induction l with
  | nil => rfl
  | cons x xs ih =>
    have hx : sortByKeyAsc key xs = xs := ih h.tail
    rw [sortByKeyAsc, hx]
    cases xs with
    | nil => rfl
    | cons y ys =>
      have hxy : key x ≤ key y := (List.chain'_cons.mp h).1
      rw [insertByKeyAsc, if_pos hxy]

/-! ## C3: task creation defaults -/

/-- C3 (counterexample): the claim "for every valid create-task input the
returned Task has status=pending and progress=0" is false. On the payload
that omits status the created task's status is absent (MemStorage never
applies the SQL-level pending default), and on a payload carrying
progress=50 the created task's progress is 50, not 0. -/
theorem createTask_c3_counterexample :
    (createTask emptyStore insBare).1.status ≠ some "pending" ∧
    (createTask emptyStore insProgress50).1.progress ≠ 0 := by
  constructor
  · intro h
    simp [createTask, emptyStore, insBare] at h
  · intro h
    simp [createTask, emptyStore, insBare, insProgress50] at h

/-- C3 (amended): for every create-task input that omits progress and
agentStates, the Task returned by createTask has a server-assigned id and
createdAt, progress=0 and agentStates=(manager pending, planner waiting,
programmer waiting); its status is copied from the input unchanged - the
store applies no pending default. -/
theorem createTask_c3_defaults (st : Store) (it : InsertTask)
    (hp : it.progress = none) (ha : it.agentStates = none) :
    (createTask st it).1.id = genId st.nextId ∧
    (createTask st it).1.createdAt = st.clock ∧
    (createTask st it).1.progress = 0 ∧
    (createTask st it).1.agentStates = defaultAgentStates ∧
    (createTask st it).1.status = it.status := by
  refine ⟨rfl, rfl, ?_, ?_, rfl⟩
  · simp [createTask, hp]
  · simp [createTask, ha]

/-- C3 witness: the amended theorem evaluated on the bare payload over the
empty store. -/
theorem createTask_c3_defaults_witness :
    (createTask emptyStore insBare).1.progress = 0 ∧
    (createTask emptyStore insBare).1.status = none :=
  ⟨(createTask_c3_defaults emptyStore insBare rfl rfl).2.2.1,
   (createTask_c3_defaults emptyStore insBare rfl rfl).2.2.2.2⟩

/-! ## C4: update frame property -/

/-- C4 (counterexample): the claim "for every partial-fields argument the
resulting entity's id and createdAt are unchanged" is false: updating the
stored task (id "a", createdAt 5) with a partial carrying id "zz" and
createdAt 99 yields an entity whose id is "zz" and createdAt is 99. -/
theorem updateTask_c4_counterexample :
    ((getTask (mkStore (mkTask "a" (some "planning"))) "a").map Task.createdAt = some 5) ∧
    ((updateTask (mkStore (mkTask "a" (some "planning"))) "a" patchIdCreatedAt).1.map
        Task.createdAt = some 99) ∧
    ((updateTask (mkStore (mkTask "a" (some "planning"))) "a" patchIdCreatedAt).1.map
        Task.id = some "zz") := by
  refine ⟨?_, ?_, ?_⟩ <;>
    simp [getTask, updateTask, mkStore, mkTask, mergePatch, patchIdCreatedAt]

/-- C4 (amended): updateTask shallow-merges the partial over the stored
entity, always refreshes updatedAt, and preserves id and createdAt
whenever the partial omits them (a partial that does carry id or
createdAt overwrites those fields, though the entity stays stored under
the original key); it returns NotFound (undefined) when the id does not
exist. -/
theorem updateTask_c4_frame (st : Store) (id : String) (p : TaskPatch)
    (hid : p.id = none) (hca : p.createdAt = none) :
    (getTask st id = none → updateTask st id p = (none, st)) ∧
    (∀ t, getTask st id = some t →
      (updateTask st id p).1 = some (mergePatch t p st.clock) ∧
      (mergePatch t p st.clock).id = t.id ∧
      (mergePatch t p st.clock).createdAt = t.createdAt ∧
      (mergePatch t p st.clock).updatedAt = st.clock ∧
      getTask (updateTask st id p).2 id = some (mergePatch t p st.clock)) := by
  constructor
  · intro h
    simp [updateTask, getTask] at h ⊢
    rw [h]
  · intro t ht
    simp only [getTask] at ht
    refine ⟨?_, ?_, ?_, rfl, ?_⟩
    · simp [updateTask, ht]
    · simp [mergePatch, hid]
    · simp [mergePatch, hca]
    · simp [updateTask, ht, getTask]

/-- C4 witness: the amended theorem evaluated on a store holding task "a"
and a partial touching only status. -/
theorem updateTask_c4_frame_witness :
    (mergePatch (mkTask "a" (some "planning")) patchStatusOnly
        (mkStore (mkTask "a" (some "planning"))).clock).id = (mkTask "a" (some "planning")).id ∧
    (mergePatch (mkTask "a" (some "planning")) patchStatusOnly
        (mkStore (mkTask "a" (some "planning"))).clock).createdAt
      = (mkTask "a" (some "planning")).createdAt := by
  have h := (updateTask_c4_frame (mkStore (mkTask "a" (some "planning"))) "a"
    patchStatusOnly rfl rfl).2 (mkTask "a" (some "planning")) (by
      simp [getTask, mkStore, mkTask])
  exact ⟨h.2.1, h.2.2.1⟩

/-! ## C9: task deletion does not cascade -/

/-- C9: deleteTask removes only the Task entity itself, returning true
exactly when the id existed; the messages and activities maps are
untouched, so every Message and Activity referencing the deleted task id
remains stored and retrievable via getMessagesByTask and
getActivitiesByUser. -/
theorem deleteTask_c9_no_cascade (st : Store) (id : String) :
    (deleteTask st id).1 = (getTask st id).isSome ∧
    getTask (deleteTask st id).2 id = none ∧
    (deleteTask st id).2.messages = st.messages ∧
    (deleteTask st id).2.activities = st.activities ∧
    (∀ tid, getMessagesByTask (deleteTask st id).2 tid = getMessagesByTask st tid) ∧
    (∀ uid lim, getActivitiesByUser (deleteTask st id).2 uid lim
      = getActivitiesByUser st uid lim) := by
  refine ⟨rfl, ?_, rfl, rfl, fun _ => rfl, fun _ _ => rfl⟩
  simp [deleteTask, getTask]

/-! ## C10: activities limit edge case at the route -/

/-- C10: at the GET activities route, a limit parameter that parses to
NaN (absent or non-numeric) or to 0 is treated as absent and the call
returns the default of up to 10 activities; for a positive parsed limit n
at most n activities are returned. -/
theorem activitiesRoute_c10_limit (st : Store) (uid : String) (s : Option String) :
    (jsParseInt s = none ∨ jsParseInt s = some 0 →
      activitiesRoute st uid s = getActivitiesByUser st uid 10 ∧
      (activitiesRoute st uid s).length ≤ 10) ∧
    (∀ n : Int, 0 < n → jsParseInt s = some n →
      ((activitiesRoute st uid s).length : Int) ≤ n) := by
  constructor
  · intro h
    have hl : limitOr10 (jsParseInt s) = 10 := by
      rcases h with h | h <;> simp [limitOr10, h]
    refine ⟨by rw [activitiesRoute, hl], ?_⟩
    rw [activitiesRoute, hl, getActivitiesByUser, jsSliceTo, if_neg (by omega)]
    simp [List.length_take_le]
  · intro n hn hs
    have hl : limitOr10 (jsParseInt s) = n := by
      simp [limitOr10, hs]
      omega
    rw [activitiesRoute, hl, getActivitiesByUser, jsSliceTo, if_neg (by omega)]
    have := List.length_take_le n.toNat
      (sortByKeyDesc Activity.createdAt
        (st.activities.filter (fun a => a.userId = some uid)))
    omega

/-- C10 witness: over the empty store, limit "0" falls back to the
default-10 call and a positive limit "3" bounds the result length. -/
theorem activitiesRoute_c10_limit_witness :
    activitiesRoute emptyStore "u1" (some "0") = getActivitiesByUser emptyStore "u1" 10 ∧
    ((activitiesRoute emptyStore "u1" (some "3")).length : Int) ≤ 3 :=
  ⟨((activitiesRoute_c10_limit emptyStore "u1" (some "0")).1 (Or.inr (by decide))).1,
   (activitiesRoute_c10_limit emptyStore "u1" (some "3")).2 3 (by decide) (by decide)⟩

/-! ## C6: message ordering round-trip -/

/-- C6: for any task id with no messages yet, inserting three messages in
sequence and reading back through getMessagesByTask yields exactly those
three messages in insertion order: the timestamps handed out by the store
clock are non-decreasing and the ascending sort is stable, so retrieval
order equals insertion order with no reordering and no deduplication. -/
theorem messages_c6_roundtrip (st : Store) (tid : String) (i1 i2 i3 : InsertMessage)
    (h1 : i1.taskId = some tid) (h2 : i2.taskId = some tid) (h3 : i3.taskId = some tid)
    (hno : ∀ m ∈ st.messages, m.taskId ≠ some tid) :
    getMessagesByTask ((createMessage ((createMessage ((createMessage st i1).2) i2).2) i3).2) tid
      = [(createMessage st i1).1,
         (createMessage ((createMessage st i1).2) i2).1,
         (createMessage ((createMessage ((createMessage st i1).2) i2).2) i3).1] := by
  have e3 : ((createMessage ((createMessage ((createMessage st i1).2) i2).2) i3).2).messages
      = st.messages ++
        [(createMessage st i1).1,
         (createMessage ((createMessage st i1).2) i2).1,
         (createMessage ((createMessage ((createMessage st i1).2) i2).2) i3).1] := by
    simp [createMessage]
  rw [getMessagesByTask, e3, List.filter_append]
  have hnil : st.messages.filter (fun m => m.taskId = some tid) = [] := by
    refine List.filter_eq_nil_iff.mpr (fun m hm => ?_)
    simpa using hno m hm
  have hkeep :
      List.filter (fun m => m.taskId = some tid)
        [(createMessage st i1).1,
         (createMessage ((createMessage st i1).2) i2).1,
         (createMessage ((createMessage ((createMessage st i1).2) i2).2) i3).1]
      = [(createMessage st i1).1,
         (createMessage ((createMessage st i1).2) i2).1,
         (createMessage ((createMessage ((createMessage st i1).2) i2).2) i3).1] := by
    have t1 : (createMessage st i1).1.taskId = some tid := h1
    have t2 : (createMessage ((createMessage st i1).2) i2).1.taskId = some tid := h2
    have t3 : (createMessage ((createMessage ((createMessage st i1).2) i2).2) i3).1.taskId
        = some tid := h3
    simp [List.filter, t1, t2, t3]
  rw [hnil, hkeep, List.nil_append]
  apply sortByKeyAsc_eq_self
  have k1 : (createMessage st i1).1.createdAt = st.clock := rfl
  have k2 : (createMessage ((createMessage st i1).2) i2).1.createdAt = st.clock + 1 := rfl
  have k3 : (createMessage ((createMessage ((createMessage st i1).2) i2).2) i3).1.createdAt
      = st.clock + 2 := rfl
  simp [List.chain'_cons, k1, k2, k3]

/-- C6 witness: the round-trip evaluated concretely for three chat
messages on task "a" over the empty store. -/
theorem messages_c6_roundtrip_witness :
    getMessagesByTask
        ((createMessage ((createMessage ((createMessage emptyStore
            (userChatInsert "a" "m1")).2) (userChatInsert "a" "m2")).2)
            (userChatInsert "a" "m3")).2) "a"
      = [(createMessage emptyStore (userChatInsert "a" "m1")).1,
         (createMessage ((createMessage emptyStore (userChatInsert "a" "m1")).2)
            (userChatInsert "a" "m2")).1,
         (createMessage ((createMessage ((createMessage emptyStore
            (userChatInsert "a" "m1")).2) (userChatInsert "a" "m2")).2)
            (userChatInsert "a" "m3")).1] :=
  messages_c6_roundtrip emptyStore "a" (userChatInsert "a" "m1") (userChatInsert "a" "m2")
    (userChatInsert "a" "m3") rfl rfl rfl (by simp [emptyStore])

/-! ## C5: broadcast hub isolation and pruning -/

/-- C5: a connection subscribed only to task A is never delivered an
event published for a different task B (broadcast delivery reaches only
the registered subscriber set of the published id); and once the last
subscriber of an id unsubscribes via the close handler, the registry
entry for that id is deleted, so a later publish to that id delivers to
nobody and the registry keeps no per-id state (broadcastToTask is a total
function, so the empty publish raises no error). -/
theorem hub_c5_isolation_pruning (reg : Registry) (A B : String) (c : Conn)
    (isOpen : Conn → Bool) (_hsubA : c ∈ subsOf reg A) (hnotB : c ∉ subsOf reg B) :
    c ∉ broadcastRecipients reg B isOpen ∧
    (∀ tid d s, reg tid = some s → s.erase d = [] →
      unsubscribe reg tid d tid = none ∧
      broadcastRecipients (unsubscribe reg tid d) tid isOpen = []) := by
  constructor
  · intro hmem
    cases hreg : reg B with
    | none => simp [broadcastRecipients, hreg] at hmem
    | some s =>
      apply hnotB
      rw [broadcastRecipients, hreg] at hmem
      rw [subsOf, hreg]
      exact (List.mem_filter.mp hmem).1
  · intro tid d s hs he
    have h1 : unsubscribe reg tid d tid = none := by
      simp [unsubscribe, hs, he]
    exact ⟨h1, by rw [broadcastRecipients, h1]⟩

/-- C5 witness: in the registry with connection 1 on task A and
connection 2 on task B, connection 1 is subscribed only to A and receives
nothing from a publish to B; after connection 2 (the last subscriber of
B) closes, B's registry entry is gone and a publish to B delivers to
nobody. -/
theorem hub_c5_isolation_pruning_witness :
    1 ∉ broadcastRecipients regAB "B" (fun _ => true) ∧
    unsubscribe regAB "B" 2 "B" = none ∧
    broadcastRecipients (unsubscribe regAB "B" 2) "B" (fun _ => true) = [] := by
  have h := hub_c5_isolation_pruning regAB "A" "B" 1 (fun _ => true)
    (by decide) (by decide)
  exact ⟨h.1, (h.2 "B" 2 [2] (by decide) (by decide)).1,
    (h.2 "B" 2 [2] (by decide) (by decide)).2⟩

/-! ## C7: chat ingestion degrades gracefully -/

/-- C7: for a chat frame on a connection subscribed to an existing task,
a failing collaborator call is absorbed inside the handler (the embedded
chatHandler is the try/catch-wrapped body, hence a total function that
returns normally on the error branch): the tasks map is exactly as it was
before the attempt, no event is broadcast, and no reply message is
appended - only the user message saved before the collaborator call
remains, and the activities map is also untouched. -/
theorem chat_c7_collab_failure (st : Store) (tid content : String) (task : Task)
    (ht : getTask st tid = some task) :
    (chatHandler st tid content (Except.error ())).1.tasks = st.tasks ∧
    (chatHandler st tid content (Except.error ())).1.activities = st.activities ∧
    (chatHandler st tid content (Except.error ())).2 = [] ∧
    (chatHandler st tid content (Except.error ())).1.messages
      = st.messages ++ [(createMessage st (userChatInsert tid content)).1] := by
  simp only [getTask] at ht
  refine ⟨?_, ?_, ?_, ?_⟩ <;>
    simp [chatHandler, getTask, ht, createMessage, userChatInsert]

/-- C7 witness: the failure path evaluated on a store holding one task in
planning. -/
theorem chat_c7_collab_failure_witness :
    (chatHandler (mkStore (mkTask "a" (some "planning"))) "a" "hi"
        (Except.error ())).1.tasks = (mkStore (mkTask "a" (some "planning"))).tasks ∧
    (chatHandler (mkStore (mkTask "a" (some "planning"))) "a" "hi"
        (Except.error ())).2 = [] := by
  have h := chat_c7_collab_failure (mkStore (mkTask "a" (some "planning"))) "a" "hi"
    (mkTask "a" (some "planning")) (by simp [getTask, mkStore, mkTask])
  exact ⟨h.1, h.2.2.1⟩

/-! ## C8: active-agent display derivation -/

/-- C8 (counterexample): the claim that a planner in an active-like
substate (here 'revising') with no active-like programmer resolves to
planner is false: getActiveAgent on agentStates (manager complete,
planner revising, programmer waiting) returns undefined, not planner -
the code matches only programmer/planner 'working' and manager
'active'. -/
theorem getActiveAgent_c8_counterexample :
    getActiveAgent (some viewPlannerRevising) = none ∧
    getActiveAgent (some viewPlannerRevising) ≠ some "planner" := by
  decide

/-- C8 (amended): the displayed active agent is resolved by the
precedence programmer before planner before manager, but the only
substates that count are 'working' for programmer and planner and
'active' for manager; any other combination (including planner 'active'
or 'revising') resolves to no foreground agent, and an absent task
resolves to none. -/
theorem getActiveAgent_c8_amended (t : TaskView) :
    (t.agentStates.programmer = "working" → getActiveAgent (some t) = some "programmer") ∧
    (t.agentStates.programmer ≠ "working" → t.agentStates.planner = "working" →
      getActiveAgent (some t) = some "planner") ∧
    (t.agentStates.programmer ≠ "working" → t.agentStates.planner ≠ "working" →
      t.agentStates.manager = "active" → getActiveAgent (some t) = some "manager") ∧
    (t.agentStates.programmer ≠ "working" → t.agentStates.planner ≠ "working" →
      t.agentStates.manager ≠ "active" → getActiveAgent (some t) = none) ∧
    getActiveAgent none = none := by
  refine ⟨?_, ?_, ?_, ?_, rfl⟩ <;> intros <;> simp [getActiveAgent, *]

/-- C8 witness: a working programmer wins the precedence even while the
planner is also working. -/
theorem getActiveAgent_c8_amended_witness :
    getActiveAgent (some
      { agentStates :=
          { manager := "complete", planner := "working", programmer := "working" } })
      = some "programmer" :=
  (getActiveAgent_c8_amended
    { agentStates :=
        { manager := "complete", planner := "working", programmer := "working" } }).1
    (by decide)

/-! ## C1: approve plan -/

/-- C1 (counterexample): the claim that approving a task whose status is
not review_required returns InvalidState and leaves the Task unchanged is
false: on a store holding task "a" with status planning, approve-plan
succeeds and rewrites the stored task's status to executing. -/
theorem approvePlan_c1_counterexample :
    (approvePlan (mkStore (mkTask "a" (some "planning"))) "a").1 ≠ RouteOut.notFound ∧
    (getTask (mkStore (mkTask "a" (some "planning"))) "a").map Task.status
      = some (some "planning") ∧
    (getTask (approvePlan (mkStore (mkTask "a" (some "planning"))) "a").2.1 "a").map
        Task.status = some (some "executing") := by
  refine ⟨?_, ?_, ?_⟩ <;>
    simp [approvePlan, getTask, mkStore, mkTask, updateTask, mergePatch,
      createActivity]

/-- C1 (amended): for every existing task, regardless of its current
status (there is no InvalidState guard - approving from planning also
transitions), approve-plan rewrites the task to status=executing with
agentStates (manager complete, planner complete, programmer active),
appends a plan_approved Activity carrying the task's id, userId and a
description built from its title, and issues exactly one plan_approved
broadcast to that task's id carrying the updated Task; when the task id
does not exist it returns NotFound and changes nothing. -/
theorem approvePlan_c1_amended (st : Store) (id : String) :
    (getTask st id = none → approvePlan st id = (.notFound, st, [])) ∧
    (∀ t, getTask st id = some t →
      ∃ t', (approvePlan st id).1 = .ok (some t') ∧
        t'.status = some "executing" ∧
        t'.agentStates =
          { manager := "complete", planner := "complete", programmer := "active" } ∧
        t'.id = t.id ∧ t'.title = t.title ∧ t'.createdAt = t.createdAt ∧
        getTask (approvePlan st id).2.1 id = some t' ∧
        (∃ a, (approvePlan st id).2.1.activities = st.activities ++ [a] ∧
          a.actType = "plan_approved" ∧
          a.description = "Plan approved for task: " ++ t.title ∧
          a.taskId = some t.id ∧ a.userId = t.userId) ∧
        (approvePlan st id).2.2 = [(t.id, Event.planApproved (some t'))]) := by
  constructor
  · intro h
    simp [approvePlan, h]
  · intro t ht
    have ht' : st.tasks id = some t := ht
    refine ⟨mergePatch t
      { status := some (some "executing")
        agentStates := some
          { manager := "complete", planner := "complete", programmer := "active" } }
      st.clock, ?_, rfl, rfl, ?_, ?_, ?_, ?_,
      ⟨{ id := genId st.nextId
         actType := "plan_approved"
         description := "Plan approved for task: " ++ t.title
         taskId := some t.id
         userId := t.userId
         metadata := []
         createdAt := st.clock + 1 }, ?_, rfl, rfl, rfl, rfl⟩, ?_⟩ <;>
      simp [approvePlan, ht, getTask, updateTask, ht', createActivity, mergePatch]

/-- C1 witness: the amended theorem evaluated on task "a" in status
planning - the stored task ends with the executing agent-states record
and exactly one broadcast is issued. -/
theorem approvePlan_c1_amended_witness :
    (getTask (approvePlan (mkStore (mkTask "a" (some "planning"))) "a").2.1 "a").map
        Task.agentStates
      = some { manager := "complete", planner := "complete", programmer := "active" } ∧
    (approvePlan (mkStore (mkTask "a" (some "planning"))) "a").2.2.length = 1 := by
  obtain ⟨t', h1, h2, h3, h4, h5, h6, h7, h8, h9⟩ :=
    (approvePlan_c1_amended (mkStore (mkTask "a" (some "planning"))) "a").2
      (mkTask "a" (some "planning")) (by simp [getTask, mkStore, mkTask])
  constructor
  · rw [h7]
    simp [h3]
  · rw [h9, List.length_singleton]

/-! ## C2: request plan changes -/

/-- C2 (counterexample): three divergences at concrete inputs. From
status review_required, request-changes with feedback "add unit tests"
leaves status at review_required rather than transitioning to planning;
from status planning it succeeds and broadcasts instead of failing with
InvalidState; and with empty feedback it appends the message and
broadcasts instead of failing with ValidationError. -/
theorem requestChanges_c2_counterexample :
    ((getTask (requestChanges (mkStore (mkTask "a" (some "review_required"))) "a"
        "add unit tests").2.1 "a").map Task.status = some (some "review_required")) ∧
    ((getTask (requestChanges (mkStore (mkTask "a" (some "review_required"))) "a"
        "add unit tests").2.1 "a").map Task.status ≠ some (some "planning")) ∧
    ((requestChanges (mkStore (mkTask "b" (some "planning"))) "b" "fb").1
        ≠ RouteOut.notFound) ∧
    ((requestChanges (mkStore (mkTask "b" (some "planning"))) "b" "fb").2.2 ≠ []) ∧
    ((requestChanges (mkStore (mkTask "a" (some "review_required"))) "a"
        "").2.1.messages.length = 1) ∧
    ((requestChanges (mkStore (mkTask "a" (some "review_required"))) "a" "").2.2 ≠ []) := by
  refine ⟨?_, ?_, ?_, ?_, ?_, ?_⟩ <;>
    simp [requestChanges, getTask, mkStore, mkTask, updateTask, mergePatch,
      createMessage]

/-- C2 (amended): for every existing task - regardless of its status, and
for every feedback string including the empty one (the handler has no
InvalidState or ValidationError check) - request-changes appends a
Message (sender user, type plan_feedback, content = feedback), sets
agentStates to (manager complete, planner revising, programmer waiting)
while leaving the status field unchanged, and issues exactly one
plan_changes_requested broadcast to that task's id carrying both the
updated Task and the raw feedback; when the task id does not exist it
returns NotFound and changes nothing. -/
theorem requestChanges_c2_amended (st : Store) (id fb : String) :
    (getTask st id = none → requestChanges st id fb = (.notFound, st, [])) ∧
    (∀ t, getTask st id = some t →
      ∃ t' m, (requestChanges st id fb).1 = .ok (some t') ∧
        t'.status = t.status ∧
        t'.agentStates =
          { manager := "complete", planner := "revising", programmer := "waiting" } ∧
        t'.id = t.id ∧
        getTask (requestChanges st id fb).2.1 id = some t' ∧
        (requestChanges st id fb).2.1.messages = st.messages ++ [m] ∧
        m.sender = "user" ∧ m.msgType = some "plan_feedback" ∧
        m.content = fb ∧ m.taskId = some t.id ∧
        (requestChanges st id fb).2.2
          = [(t.id, Event.planChangesRequested (some t') fb)]) := by
  constructor
  · intro h
    simp [requestChanges, h]
  · intro t ht
    have ht' : st.tasks id = some t := ht
    refine ⟨mergePatch t
      { agentStates := some
          { manager := "complete", planner := "revising", programmer := "waiting" } }
      (st.clock + 1),
      (createMessage st
        { taskId := some t.id, sender := "user", content := fb
          msgType := some "plan_feedback" }).1,
      ?_, ?_, rfl, ?_, ?_, ?_, rfl, rfl, rfl, rfl, ?_⟩ <;>
      simp [requestChanges, ht, getTask, updateTask, ht', createMessage, mergePatch]

/-- C2 witness: the amended theorem evaluated on task "b" in status
review_required with feedback "add unit tests" - the stored task ends
with planner revising and exactly one message was appended. -/
theorem requestChanges_c2_amended_witness :
    (getTask (requestChanges (mkStore (mkTask "b" (some "review_required"))) "b"
        "add unit tests").2.1 "b").map Task.agentStates
      = some { manager := "complete", planner := "revising", programmer := "waiting" } ∧
    (requestChanges (mkStore (mkTask "b" (some "review_required"))) "b"
        "add unit tests").2.1.messages.length = 1 := by
  obtain ⟨t', m, h1, h2, h3, h4, h5, h6, h7, h8, h9, h10, h11⟩ :=
    (requestChanges_c2_amended (mkStore (mkTask "b" (some "review_required"))) "b"
      "add unit tests").2 (mkTask "b" (some "review_required"))
      (by simp [getTask, mkStore, mkTask])
  constructor
  · rw [h5]
    simp [h3]
  · rw [h6]
    rfl

end SWE
